import Mathlib

/-!
# pkg/cache/internal/listwatcher_transform.go

A shallow embedding of the transforming list/watch wrapper.

* Object values are references (or nil); what they point at lives in a world
  `W` that the collaborators outside the file (the transformer, the inner
  list/watch source, the `meta` helpers, inner streams) read and write.
* Every call the file makes to such a collaborator is appended to a trace.
* The goroutine started by `newWatcherWrapper` is a small-step machine whose
  steps are the atomic actions of its body. Channels are unbuffered: a send
  happens only together with a receive, by a consumer outside the file that is
  still going to receive or by another goroutine of the file waiting on the
  channel, and a goroutine that is blocked has no step.
-/

namespace ListWatcherTransform

/-! ## Data model -/

/-- A `runtime.Object` interface value: a reference to an object of the world,
`none` being the nil interface. -/
abbrev Object := Option Nat

/-- The type `watch.EventType`, a Go string. -/
abbrev EventType := String

/-- The struct `watch.Event`; the field `Typ` is Go's `Type`. -/
structure Event where
  Typ : EventType
  Object : Object
deriving DecidableEq, Repr

/-- Go error values. `upstream` is an error built outside the file, with an
identity and the text its `Error()` method gives; `errorf` is the value
`fmt.Errorf` builds from an already formatted message. -/
inductive GoError where
  | upstream (ident : Nat) (message : String)
  | errorf (message : String)
deriving DecidableEq, Repr

/-- The method `Error()`, which is also how the verb `%v` prints an error. -/
def GoError.Error : GoError → String
  | .upstream _ message => message
  | .errorf message => message

/-- The type `ObjectTransformerFunc` (line 34): a Go function from an object
to an object, which may also mutate the world it runs in. -/
abbrev ObjectTransformerFunc (W : Type) := W → Object → W × Object

/-- Calls made to collaborators outside the file, as recorded in the trace. -/
inductive Call where
  | IsListType (obj : Object)
  | ExtractList (obj : Object)
  | transformer (arg : Object) (ret : Object)
  | SetList (obj : Object) (items : List Object)
  | Stop (ident : Nat)
deriving DecidableEq, Repr

/-- What has happened on a channel made by `newWatcherWrapper`. -/
inductive ChanOp where
  | send (event : Event)
  | close
deriving DecidableEq, Repr

/-- A receive-only channel handle, as `ResultChan` returns it. A channel fed
from outside the file is represented by what it still delivers: the events, in
order, and whether it is closed after the last one. A channel made by
`newWatcherWrapper` is an index into the channel table of the runtime. -/
inductive Chan where
  | source (events : List Event) (closes : Bool)
  | made (id : Nat)
deriving DecidableEq, Repr

/-- A `watch.Interface` value: nil, a stream implemented outside the file
(identity, the effect of its `Stop` on the world, its result channel), or a
`*watcherWrapper` (lines 29-32) with its fields `wrapped` and `channel`. -/
inductive WatchInterface (W : Type) where
  | nil
  | source (ident : Nat) (stop : W → W) (events : List Event) (closes : Bool)
  | watcherWrapper (wrapped : WatchInterface W) (channel : Nat)

/-- Program counter of the goroutine of lines 39-48. -/
inductive Pc where
  | start
  | recv
  | transform (event : Event)
  | send (event : Event)
  | closing
  | done
deriving DecidableEq, Repr

/-- The goroutine of lines 39-48: its captured variables `wrapped`,
`transformer` and `output`, its local `input`, and its program counter. -/
structure Goroutine (W : Type) where
  wrapped : WatchInterface W
  transformer : ObjectTransformerFunc W
  output : Nat
  input : Option Chan
  pc : Pc

/-- Everything that can change: the world outside the file, the trace of calls
into it, the history of every channel made by the file, the goroutines it
started, whether a run-time fault (nil dereference) happened, and, for each
channel made by the file, how many more events the consumers outside the file
are going to receive from it. -/
structure Runtime (W : Type) where
  world : W
  trace : List Call
  chans : List (List ChanOp)
  procs : List (Goroutine W)
  faulted : Bool
  receivers : Nat → Nat

/-- The functions of `k8s.io/apimachinery/pkg/api/meta` the file calls. They
are not part of the repository and are taken as parameters. -/
structure Meta (W : Type) where
  IsListType : W → Object → Bool
  ExtractList : W → Object → W × List Object × Option GoError
  SetList : W → Object → List Object → W × Option GoError

/-- The struct `cache.ListWatch`, with its two function fields. -/
structure ListWatch (W Opts : Type) where
  ListFunc : Opts → Runtime W → Runtime W × Object × Option GoError
  WatchFunc : Opts → Runtime W → Runtime W × WatchInterface W × Option GoError

/-! ## Calls to collaborators -/

/-- Call `fmt.Errorf` with a format that has no verb. -/
def Errorf (message : String) : GoError := .errorf message

/-- Call `fmt.Errorf(format ++ "%v", err)`. -/
def ErrorfV (format : String) (err : GoError) : GoError := .errorf (format ++ err.Error)

/-- Invoke the transformer on `val`. -/
def callTransformer {W : Type} (transformer : ObjectTransformerFunc W) (val : Object)
    (rt : Runtime W) : Runtime W × Object :=
  let r := transformer rt.world val
  ({ rt with world := r.1, trace := rt.trace ++ [Call.transformer val r.2] }, r.2)

/-- Invoke `meta.IsListType`. -/
def callIsListType {W : Type} (m : Meta W) (obj : Object) (rt : Runtime W) : Runtime W × Bool :=
  ({ rt with trace := rt.trace ++ [Call.IsListType obj] }, m.IsListType rt.world obj)

/-- Invoke `meta.ExtractList`. -/
def callExtractList {W : Type} (m : Meta W) (obj : Object) (rt : Runtime W) :
    Runtime W × List Object × Option GoError :=
  let r := m.ExtractList rt.world obj
  ({ rt with world := r.1, trace := rt.trace ++ [Call.ExtractList obj] }, r.2.1, r.2.2)

/-- Invoke `meta.SetList`. -/
def callSetList {W : Type} (m : Meta W) (obj : Object) (items : List Object) (rt : Runtime W) :
    Runtime W × Option GoError :=
  let r := m.SetList rt.world obj items
  ({ rt with world := r.1, trace := rt.trace ++ [Call.SetList obj items] }, r.2)

/-! ## The watcher wrapper (lines 36-62) -/

/-- The function `newWatcherWrapper` (lines 36-54): make the output channel,
start the goroutine, return the wrapper. -/
def newWatcherWrapper {W : Type} (wrapped : WatchInterface W)
    (transformer : ObjectTransformerFunc W) (rt : Runtime W) : Runtime W × WatchInterface W :=
  let output := rt.chans.length
  let rt1 := { rt with chans := rt.chans ++ [[]] }
  let rt2 := { rt1 with procs := rt1.procs ++
    [{ wrapped := wrapped, transformer := transformer, output := output,
       input := none, pc := Pc.start }] }
  (rt2, WatchInterface.watcherWrapper wrapped output)

/-- The method `Stop` of a `watch.Interface` value. For a `*watcherWrapper`
this is lines 56-58, `w.wrapped.Stop()`; for a stream from outside, the call is
recorded and its effect applied to the world; through nil it faults. -/
def WatchInterface.Stop {W : Type} : WatchInterface W → Runtime W → Runtime W
  | .nil, rt => { rt with faulted := true }
  | .source ident stop _ _, rt =>
    { rt with world := stop rt.world, trace := rt.trace ++ [Call.Stop ident] }
  | .watcherWrapper wrapped _, rt => WatchInterface.Stop wrapped rt

/-- The method `ResultChan` of a `watch.Interface` value. For a
`*watcherWrapper` this is lines 60-62, `return w.channel`; nil has none. -/
def WatchInterface.ResultChan {W : Type} : WatchInterface W → Option Chan
  | .nil => none
  | .source _ _ events closes => some (Chan.source events closes)
  | .watcherWrapper _ channel => some (Chan.made channel)

/-- The history of channel `c`. -/
def Runtime.history {W : Type} (rt : Runtime W) (c : Nat) : List ChanOp :=
  (rt.chans[c]?).getD []

/-- Append an operation to the history of channel `c`. -/
def Runtime.chanOp {W : Type} (rt : Runtime W) (c : Nat) (op : ChanOp) : Runtime W :=
  { rt with chans := rt.chans.set c (rt.history c ++ [op]) }

/-- Store the new state of goroutine `i`. -/
def Runtime.setProc {W : Type} (rt : Runtime W) (i : Nat) (g : Goroutine W) : Runtime W :=
  { rt with procs := rt.procs.set i g }

/-- A consumer outside the file receives one event from channel `c`. -/
def Runtime.handOver {W : Type} (rt : Runtime W) (c : Nat) : Runtime W :=
  { rt with receivers := fun d => if d = c then rt.receivers d - 1 else rt.receivers d }

/-- The first goroutine, counting from index `j`, that is waiting in a send on
channel `c`, with the event it is sending. -/
def senderOn {W : Type} (c : Nat) : List (Goroutine W) → Nat → Option (Nat × Goroutine W × Event)
  | [], _ => none
  | g :: gs, j =>
    match g.pc with
    | .send ev => if g.output = c then some (j, g, ev) else senderOn c gs (j + 1)
    | _ => senderOn c gs (j + 1)

/-- One atomic action of goroutine `i` (lines 39-48), `none` when it cannot
act: it has returned, or it is blocked in a channel operation.

The channels are unbuffered (line 37). A receive from a channel fed from
outside takes the next event it delivers, ends the loop when it is closed, and
blocks when it delivers nothing more and stays open. A receive from a channel
made by another wrapper takes the event of the goroutine waiting in a send on
it (both move on), ends the loop when that channel has been closed, and blocks
otherwise. A send to a consumer outside the file happens only while that
consumer is still going to receive, and blocks otherwise. -/
def Runtime.step {W : Type} (i : Nat) (rt : Runtime W) : Option (Runtime W) :=
  match rt.procs[i]? with
  | none => none
  | some g =>
    match g.pc with
    | .start =>                                          -- line 40
      match g.wrapped.ResultChan with
      | none => some ({ rt with faulted := true }.setProc i { g with pc := .done })
      | some c => some (rt.setProc i { g with input := some c, pc := .recv })
    | .recv =>                                           -- line 41
      match g.input with
      | some (.source (event :: rest) closes) =>
        some (rt.setProc i { g with input := some (.source rest closes), pc := .transform event })
      | some (.source [] true) => some (rt.setProc i { g with pc := .closing })
      | some (.source [] false) => none
      | some (.made c) =>
        if ChanOp.close ∈ rt.history c then some (rt.setProc i { g with pc := .closing })
        else
          match senderOn c rt.procs 0 with
          | some (j, gj, ev) =>
            some (((rt.chanOp c (.send ev)).setProc j { gj with pc := .recv }).setProc i
              { g with pc := .transform ev })
          | none => none
      | none => none
    | .transform event =>                                -- lines 42-45, building the event
      let r := callTransformer g.transformer event.Object rt
      some (r.1.setProc i { g with pc := .send { Typ := event.Typ, Object := r.2 } })
    | .send ev =>                                        -- line 42, the send
      if 0 < rt.receivers g.output then
        some (((rt.handOver g.output).chanOp g.output (.send ev)).setProc i { g with pc := .recv })
      else none
    | .closing =>                                        -- line 47
      some ((rt.chanOp g.output .close).setProc i { g with pc := .done })
    | .done => none

/-- Let the goroutines act in the order of `schedule`, one action each time;
a goroutine that cannot act when its turn comes is passed over. -/
def Runtime.sched {W : Type} : List Nat → Runtime W → Runtime W
  | [], rt => rt
  | i :: rest, rt =>
    match rt.step i with
    | none => Runtime.sched rest rt
    | some rt1 => Runtime.sched rest rt1

/-- The loop of lines 85-88, `for i, val := range itemsList`: for each index
of `itemsList`, read the element into `val`, call `transformer(val)` without
using what it returns (line 86), and store `val` at the same index
(line 87, `itemsList[i] = val`). -/
def transformItems {W : Type} (transformer : ObjectTransformerFunc W) (itemsList : List Object)
    (rt : Runtime W) : Runtime W × List Object :=
  (List.range itemsList.length).foldl
    (fun (st : Runtime W × List Object) (i : Nat) =>
      match st.2[i]? with
      | none => st
      | some val =>
        let r := callTransformer transformer val st.1
        (r.1, st.2.set i val))
    (rt, itemsList)

/-- The function `wrapListWatchWithTransformer` (lines 64-105); a nil
transformer is `none`. -/
def wrapListWatchWithTransformer {W Opts : Type} (m : Meta W) (lw : ListWatch W Opts)
    (transformer : Option (ObjectTransformerFunc W)) : ListWatch W Opts :=
  match transformer with
  | none => lw                                           -- lines 65-67
  | some t =>
    { ListFunc := fun opts rt =>
        let r := lw.ListFunc opts rt                     -- line 71
        match r.2.2 with
        | some err => (r.1, none, some err)              -- lines 72-74
        | none =>
          let res := r.2.1
          let il := callIsListType m res r.1             -- line 76
          if !il.2 then
            (il.1, none, some (Errorf "inner List func did not return a list"))
          else
            let ex := callExtractList m res il.1         -- line 80
            match ex.2.2 with
            | some err =>
              (ex.1, none, some (ErrorfV "failed to get Items of list to transform: " err))
            | none =>
              let tr := transformItems t ex.2.1 ex.1     -- lines 85-88
              let st := callSetList m res tr.2 tr.1      -- line 90
              match st.2 with
              | some err => (st.1, none, some (ErrorfV "failed to transform list: " err))
              | none => (st.1, res, none)                -- line 95
      WatchFunc := fun opts rt =>
        let r := lw.WatchFunc opts rt                    -- line 98
        match r.2.2 with
        | some err => (r.1, WatchInterface.nil, some err)   -- lines 99-101
        | none =>
          let w := newWatcherWrapper r.2.1 t r.1         -- line 102
          (w.1, w.2, none) }

/-! ## Reference descriptions used in the statements -/

/-- The transformer calls made when the transformer is invoked on each of
`vals` in turn, starting in world `w`: argument and returned value of each. -/
def transformerCalls {W : Type} (t : ObjectTransformerFunc W) (w : W) : List Object → List Call
  | [] => []
  | v :: vs => Call.transformer v (t w v).2 :: transformerCalls t (t w v).1 vs

/-- The world after the transformer has been invoked on each of `vals` in turn. -/
def worldAfter {W : Type} (t : ObjectTransformerFunc W) (w : W) : List Object → W
  | [] => w
  | v :: vs => worldAfter t (t w v).1 vs

/-- The values the transformer returns when invoked on each of `vals` in turn. -/
def transformerReturns {W : Type} (t : ObjectTransformerFunc W) (w : W) : List Object → List Object
  | [] => []
  | v :: vs => (t w v).2 :: transformerReturns t (t w v).1 vs

/-- The events `{Type: E.Type, Object: T(E.Object)}` for each `E` of `events`
in turn, `T(E.Object)` being what the transformer returns when invoked on the
payload after the invocations before it. -/
def transformedEvents {W : Type} (t : ObjectTransformerFunc W) (w : W) : List Event → List Event
  | [] => []
  | e :: es => { Typ := e.Typ, Object := (t w e.Object).2 } :: transformedEvents t (t w e.Object).1 es

/-! ## A worked example world

Used to evaluate the definitions on concrete inputs. Objects are items with a
counter or lists with a resource version and items; references are indices. -/

/-- An object of the example world. -/
inductive ExObj where
  | item (counter : Nat)
  | list (resourceVersion : String) (Items : List Object)
deriving DecidableEq, Repr

/-- The example world: the objects, by reference. -/
abbrev ExWorld := List ExObj

/-- The items of the list at `obj`, if `obj` is a list. -/
def exItems (w : ExWorld) (obj : Object) : Option (List Object) :=
  match obj with
  | none => none
  | some r =>
    match w[r]? with
    | some (.list _ items) => some items
    | _ => none

/-- The `meta` functions on the example world: a list is an object with
`Items`; `ExtractList` returns them; `SetList` stores the given items and
keeps the resource version, and rejects a nil item. -/
def exMeta : Meta ExWorld where
  IsListType := fun w obj => (exItems w obj).isSome
  ExtractList := fun w obj =>
    match exItems w obj with
    | some items => (w, items, none)
    | none => (w, [], some (GoError.upstream 1 "no Items field"))
  SetList := fun w obj items =>
    match obj with
    | none => (w, some (GoError.upstream 2 "not a list"))
    | some r =>
      match w[r]? with
      | some (.list rv _) =>
        if items.all Option.isSome then (w.set r (.list rv items), none)
        else (w, some (GoError.upstream 3 "nil item"))
      | _ => (w, some (GoError.upstream 2 "not a list"))

/-- A transformer that doubles the counter of its argument in place and
returns the same reference. -/
def doubleInPlace : ObjectTransformerFunc ExWorld := fun w obj =>
  match obj with
  | none => (w, none)
  | some r =>
    match w[r]? with
    | some (.item c) => (w.set r (.item (2 * c)), some r)
    | _ => (w, some r)

/-- A transformer that leaves its argument untouched and returns a new object
holding the doubled counter. -/
def doubleCopy : ObjectTransformerFunc ExWorld := fun w obj =>
  match obj with
  | none => (w, none)
  | some r =>
    match w[r]? with
    | some (.item c) => (w ++ [.item (2 * c)], some w.length)
    | _ => (w, some r)

/-- A runtime in which nothing has happened yet, with consumers that are going
to receive `r` events from each channel. -/
def Runtime.freshWith {W : Type} (w : W) (r : Nat) : Runtime W :=
  { world := w, trace := [], chans := [], procs := [], faulted := false, receivers := fun _ => r }

/-- A runtime in which nothing has happened yet and nobody is going to receive. -/
def Runtime.fresh {W : Type} (w : W) : Runtime W := Runtime.freshWith w 0

/-- The example world: the list at 0 holds the items at 1 and 2. -/
def exWorld : ExWorld := [.list "rv7" [some 1, some 2], .item 5, .item 7]

/-- An inner stream delivering two events and then closing. -/
def exStream : WatchInterface ExWorld :=
  .source 9 id [{ Typ := "ADDED", Object := some 1 }, { Typ := "MODIFIED", Object := some 2 }] true

/-- An inner source whose `ListFunc` returns `obj` and `listErr`, and whose
`WatchFunc` returns `stream` and `watchErr`. -/
def exSource (obj : Object) (listErr : Option GoError) (stream : WatchInterface ExWorld)
    (watchErr : Option GoError) : ListWatch ExWorld Unit where
  ListFunc := fun _ rt => (rt, obj, listErr)
  WatchFunc := fun _ rt => (rt, stream, watchErr)

/-- The example `meta` functions, except that `ExtractList` always fails. -/
def exMetaNoExtract : Meta ExWorld :=
  { exMeta with ExtractList := fun w _ => (w, [], some (GoError.upstream 1 "no Items field")) }

/-- An example world whose list at 0 holds a nil item. -/
def exWorldNil : ExWorld := [.list "rv7" [none]]

/-- A runtime in which nothing has happened yet, where a consumer outside is
going to receive two events from channel 1 and nobody outside reads channel 0. -/
def exNestedStart : Runtime ExWorld :=
  { Runtime.fresh exWorld with receivers := fun c => if c = 1 then 2 else 0 }

/-- A wrapper around a wrapper around the example stream: goroutine 0 forwards
the stream to channel 0, goroutine 1 forwards channel 0 to channel 1. -/
def exNested : Runtime ExWorld × WatchInterface ExWorld :=
  let inner := newWatcherWrapper exStream doubleInPlace exNestedStart
  newWatcherWrapper inner.2 doubleInPlace inner.1

/-! ## Lemmas on the loop of the list path -/

theorem transformerCalls_append {W : Type} (t : ObjectTransformerFunc W) (w : W)
    (xs ys : List Object) :
    transformerCalls t w (xs ++ ys)
      = transformerCalls t w xs ++ transformerCalls t (worldAfter t w xs) ys := by
  induction xs generalizing w with
  | nil => simp [transformerCalls, worldAfter]
  | cons x xs ih => simp [transformerCalls, worldAfter, ih]

theorem worldAfter_append {W : Type} (t : ObjectTransformerFunc W) (w : W)
    (xs ys : List Object) :
    worldAfter t w (xs ++ ys) = worldAfter t (worldAfter t w xs) ys := by
  induction xs generalizing w with
  | nil => simp [worldAfter]
  | cons x xs ih => simp [worldAfter, ih]

theorem set_same {α : Type} (l : List α) (n : Nat) (h : n < l.length) :
    l.set n (l.get ⟨n, h⟩) = l := by
  induction l generalizing n with
  | nil => simp at h
  | cons x xs ih =>
    cases n with
    | zero => simp
    | succ n => simpa using ih n (by simpa using h)

theorem transformItems_upto {W : Type} (t : ObjectTransformerFunc W) (items : List Object)
    (rt : Runtime W) (n : Nat) (hn : n ≤ items.length) :
    (List.range n).foldl
      (fun (st : Runtime W × List Object) (i : Nat) =>
        match st.2[i]? with
        | none => st
        | some val =>
          let r := callTransformer t val st.1
          (r.1, st.2.set i val))
      (rt, items)
    = ({ rt with world := worldAfter t rt.world (items.take n),
                 trace := rt.trace ++ transformerCalls t rt.world (items.take n) }, items) := by
  induction n with
  | zero => simp [worldAfter, transformerCalls]
  | succ n ih =>
    have hlt : n < items.length := hn
    rw [List.range_succ, List.foldl_append, ih (Nat.le_of_lt hlt)]
    simp only [List.foldl_cons, List.foldl_nil]
    rw [List.getElem?_eq_getElem hlt]
    simp only [callTransformer]
    have ht : items.take (n + 1) = items.take n ++ [items[n]] := by
      rw [List.take_succ, List.getElem?_eq_getElem hlt]
      rfl
    rw [ht, worldAfter_append, transformerCalls_append]
    have hs := set_same items n hlt
    simp only [List.get_eq_getElem] at hs
    simp [worldAfter, transformerCalls, hs]

theorem transformItems_eq {W : Type} (t : ObjectTransformerFunc W) (items : List Object)
    (rt : Runtime W) :
    transformItems t items rt
      = ({ rt with world := worldAfter t rt.world items,
                   trace := rt.trace ++ transformerCalls t rt.world items }, items) := by
  have h := transformItems_upto t items rt items.length (Nat.le_refl _)
  simpa [transformItems] using h

/-! ## Error messages of the list path -/

theorem extract_message_ne_setlist_message (x y : String) :
    "failed to get Items of list to transform: " ++ x ≠ "failed to transform list: " ++ y := by
  intro h
  have h2 := congrArg String.data h
  simp only [String.data_append] at h2
  have h3 := congrArg (fun l => l.get? 10) h2
  simp at h3

theorem extract_message_ne_shape_message (x : String) :
    "failed to get Items of list to transform: " ++ x ≠ "inner List func did not return a list" := by
  intro h
  have h2 := congrArg String.data h
  simp only [String.data_append] at h2
  have h3 := congrArg (fun l => l.head?) h2
  simp at h3

theorem setlist_message_ne_shape_message (y : String) :
    "failed to transform list: " ++ y ≠ "inner List func did not return a list" := by
  intro h
  have h2 := congrArg String.data h
  simp only [String.data_append] at h2
  have h3 := congrArg (fun l => l.head?) h2
  simp at h3

/-! ## The list path -/

/-- C2: with a nil transformer, `wrapListWatchWithTransformer` returns `lw`
itself, so its `ListFunc` and `WatchFunc` are those of `lw` and give the same
results for every options value and every state. -/
theorem C2_nil_transformer_returns_lw {W Opts : Type} (m : Meta W) (lw : ListWatch W Opts) :
    wrapListWatchWithTransformer m lw none = lw
    ∧ (∀ (opts : Opts) (rt : Runtime W),
        (wrapListWatchWithTransformer m lw none).ListFunc opts rt = lw.ListFunc opts rt)
    ∧ (∀ (opts : Opts) (rt : Runtime W),
        (wrapListWatchWithTransformer m lw none).WatchFunc opts rt = lw.WatchFunc opts rt) :=
  ⟨rfl, fun _ _ => rfl, fun _ _ => rfl⟩

/-- C4: when the inner `ListFunc` returns an error `e` (with whatever object),
the wrapped `ListFunc` returns a nil object together with exactly `e`, and
leaves the state exactly as the inner call left it: nothing is added to the
trace, so the transformer is not invoked (nor is any `meta` function), and the
world is untouched. -/
theorem C4_list_error_propagated {W Opts : Type} (m : Meta W) (lw : ListWatch W Opts)
    (t : ObjectTransformerFunc W) (opts : Opts) (rt rt1 : Runtime W) (res : Object) (e : GoError)
    (h : lw.ListFunc opts rt = (rt1, res, some e)) :
    (wrapListWatchWithTransformer m lw (some t)).ListFunc opts rt = (rt1, none, some e)
    ∧ ((wrapListWatchWithTransformer m lw (some t)).ListFunc opts rt).1.trace = rt1.trace := by
  simp [wrapListWatchWithTransformer, h]

/-- C5: when the inner `ListFunc` succeeds with a value for which
`meta.IsListType` is false, the wrapped `ListFunc` returns a nil object and the
error "inner List func did not return a list"; the only call it makes after
the inner one is `IsListType` (no transformer call, no `ExtractList`, no
`SetList`), the world is as the inner call left it, and no fault is raised
that was not there before. -/
theorem C5_not_a_list_gives_shape_error {W Opts : Type} (m : Meta W) (lw : ListWatch W Opts)
    (t : ObjectTransformerFunc W) (opts : Opts) (rt rt1 : Runtime W) (res : Object)
    (h : lw.ListFunc opts rt = (rt1, res, none))
    (hshape : m.IsListType rt1.world res = false) :
    (wrapListWatchWithTransformer m lw (some t)).ListFunc opts rt
      = ({ rt1 with trace := rt1.trace ++ [Call.IsListType res] }, none,
          some (GoError.errorf "inner List func did not return a list"))
    ∧ ((wrapListWatchWithTransformer m lw (some t)).ListFunc opts rt).1.faulted = rt1.faulted
    ∧ ((wrapListWatchWithTransformer m lw (some t)).ListFunc opts rt).1.world = rt1.world := by
  simp [wrapListWatchWithTransformer, h, callIsListType, hshape, Errorf]

/-- C9: for a list-shaped inner result, (1) when `meta.ExtractList` fails with
cause `c`, the wrapped `ListFunc` returns a nil object and the error
"failed to get Items of list to transform: " followed by the message of `c`,
having called only `IsListType` and `ExtractList` (no transformer call, no
`SetList`); (2) when extraction succeeds and `meta.SetList` fails with cause
`c`, it returns a nil object and the error "failed to transform list: "
followed by the message of `c`; (3) the two messages differ from each other
and from the shape error, whatever the causes. -/
theorem C9_extract_and_setlist_errors {W Opts : Type} (m : Meta W) (lw : ListWatch W Opts)
    (t : ObjectTransformerFunc W) (opts : Opts) (rt rt1 : Runtime W) (res : Object)
    (h : lw.ListFunc opts rt = (rt1, res, none))
    (hshape : m.IsListType rt1.world res = true) :
    (∀ (w2 : W) (items : List Object) (c : GoError),
      m.ExtractList rt1.world res = (w2, items, some c) →
      (wrapListWatchWithTransformer m lw (some t)).ListFunc opts rt
        = ({ rt1 with world := w2,
                      trace := rt1.trace ++ [Call.IsListType res, Call.ExtractList res] },
            none,
            some (GoError.errorf ("failed to get Items of list to transform: " ++ c.Error))))
    ∧ (∀ (w2 w3 : W) (items : List Object) (c : GoError),
      m.ExtractList rt1.world res = (w2, items, none) →
      m.SetList (worldAfter t w2 items) res items = (w3, some c) →
      ((wrapListWatchWithTransformer m lw (some t)).ListFunc opts rt).2
        = (none, some (GoError.errorf ("failed to transform list: " ++ c.Error))))
    ∧ (∀ c1 c2 : GoError,
      "failed to get Items of list to transform: " ++ c1.Error
        ≠ "failed to transform list: " ++ c2.Error
      ∧ "failed to get Items of list to transform: " ++ c1.Error
        ≠ "inner List func did not return a list"
      ∧ "failed to transform list: " ++ c2.Error ≠ "inner List func did not return a list") := by
  refine ⟨?_, ?_, ?_⟩
  · intro w2 items c hc
    simp [wrapListWatchWithTransformer, h, callIsListType, hshape, callExtractList, hc, ErrorfV]
  · intro w2 w3 items c hex hset
    simp [wrapListWatchWithTransformer, h, callIsListType, hshape, callExtractList, hex,
      transformItems_eq, callSetList, hset, ErrorfV]
  · intro c1 c2
    exact ⟨extract_message_ne_setlist_message _ _, extract_message_ne_shape_message _,
      setlist_message_ne_shape_message _⟩

theorem transformerCalls_eq_zipWith {W : Type} (t : ObjectTransformerFunc W) (w : W)
    (items : List Object) :
    transformerCalls t w items
      = List.zipWith Call.transformer items (transformerReturns t w items) := by
  induction items generalizing w with
  | nil => rfl
  | cons v vs ih => simp [transformerCalls, transformerReturns, ih]

theorem transformerReturns_length {W : Type} (t : ObjectTransformerFunc W) (w : W)
    (items : List Object) : (transformerReturns t w items).length = items.length := by
  induction items generalizing w with
  | nil => rfl
  | cons v vs ih => simp [transformerReturns, ih]

theorem transformerReturns_same_ref {W : Type} (t : ObjectTransformerFunc W)
    (hsame : ∀ (w : W) (v : Object), (t w v).2 = v) (w : W) (items : List Object) :
    transformerReturns t w items = items := by
  induction items generalizing w with
  | nil => rfl
  | cons v vs ih => simp [transformerReturns, ih, hsame]

theorem worldAfter_preserves {W : Type} (t : ObjectTransformerFunc W) (P : W → Prop)
    (hP : ∀ (w : W) (v : Object), P w → P (t w v).1) (w : W) (items : List Object)
    (h0 : P w) : P (worldAfter t w items) := by
  induction items generalizing w with
  | nil => exact h0
  | cons v vs ih => exact ih _ (hP w v h0)

/-- C10: on a list-shaped inner result whose items `items` are extracted in
world `w2`, the wrapped `ListFunc` calls, in this order, `IsListType`,
`ExtractList`, the transformer once on each item in index order, and then
`SetList` with exactly `items` (the references `ExtractList` returned, the
values the transformer returned being dropped), in the world the transformer
calls left. So a transformer that always returns its argument has its returned
values in the list handed to `SetList`, and whatever holds of the world after
extraction and is kept by every transformer call (such as the content of the
items, under a transformer that leaves its argument untouched and returns a
new object) still holds of the world in which `SetList` is handed the
extracted items. -/
theorem C10_list_keeps_extracted_references {W Opts : Type} (m : Meta W) (lw : ListWatch W Opts)
    (t : ObjectTransformerFunc W) (opts : Opts) (rt rt1 : Runtime W) (res : Object)
    (w2 : W) (items : List Object)
    (h : lw.ListFunc opts rt = (rt1, res, none))
    (hshape : m.IsListType rt1.world res = true)
    (hex : m.ExtractList rt1.world res = (w2, items, none)) :
    ((wrapListWatchWithTransformer m lw (some t)).ListFunc opts rt).1.trace
      = rt1.trace ++ [Call.IsListType res, Call.ExtractList res]
        ++ List.zipWith Call.transformer items (transformerReturns t w2 items)
        ++ [Call.SetList res items]
    ∧ (transformerReturns t w2 items).length = items.length
    ∧ ((wrapListWatchWithTransformer m lw (some t)).ListFunc opts rt).1.world
      = (m.SetList (worldAfter t w2 items) res items).1
    ∧ ((m.SetList (worldAfter t w2 items) res items).2 = none →
        ((wrapListWatchWithTransformer m lw (some t)).ListFunc opts rt).2 = (res, none))
    ∧ ((∀ (w : W) (v : Object), (t w v).2 = v) → transformerReturns t w2 items = items)
    ∧ (∀ P : W → Prop, P w2 → (∀ (w : W) (v : Object), P w → P (t w v).1) →
        P (worldAfter t w2 items)) := by
  refine ⟨?_, transformerReturns_length t w2 items, ?_, ?_, ?_, ?_⟩
  · cases hs : (m.SetList (worldAfter t w2 items) res items).2 <;>
      simp [wrapListWatchWithTransformer, h, callIsListType, hshape, callExtractList, hex,
        transformItems_eq, callSetList, hs, transformerCalls_eq_zipWith]
  · cases hs : (m.SetList (worldAfter t w2 items) res items).2 <;>
      simp [wrapListWatchWithTransformer, h, callIsListType, hshape, callExtractList, hex,
        transformItems_eq, callSetList, hs]
  · intro hs
    simp [wrapListWatchWithTransformer, h, callIsListType, hshape, callExtractList, hex,
      transformItems_eq, callSetList, hs]
  · intro hsame
    exact transformerReturns_same_ref t hsame w2 items
  · intro P h0 hP
    exact worldAfter_preserves t P hP w2 items h0

/-! ## The watch path: the goroutine -/

theorem chans_chanOp {W : Type} (rt : Runtime W) (c : Nat) (op : ChanOp) (hist : List ChanOp)
    (h : rt.chans[c]? = some hist) : (rt.chanOp c op).chans[c]? = some (hist ++ [op]) := by
  have hlt : c < rt.chans.length := (List.getElem?_eq_some.mp h).1
  simp [Runtime.chanOp, Runtime.history, List.getElem?_set_self hlt, h]

/-- With a transformer that does not touch the world and computes `f`, the
transformed events are the events with `f` applied to each payload. -/
theorem transformedEvents_of_function {W : Type} (t : ObjectTransformerFunc W)
    (f : Object → Object) (hf : ∀ (w : W) (o : Object), t w o = (w, f o)) (w : W)
    (es : List Event) :
    transformedEvents t w es = es.map (fun e => { Typ := e.Typ, Object := f e.Object }) := by
  induction es generalizing w with
  | nil => rfl
  | cons e es ih => simp [transformedEvents, hf, ih]

/-- C6: when the inner `WatchFunc` returns an error `e`, the wrapped
`WatchFunc` returns a nil stream together with exactly `e` and the state as
the inner call left it (no channel made, no goroutine started, no transformer
call); when it succeeds with stream `s`, the result is a `watcherWrapper` whose
`wrapped` is `s` and whose `channel` is a newly made channel, with one new
goroutine at its start. -/
theorem C6_watch_error_propagated_or_wrapped {W Opts : Type} (m : Meta W) (lw : ListWatch W Opts)
    (t : ObjectTransformerFunc W) (opts : Opts) (rt rt1 : Runtime W) (s : WatchInterface W) :
    (∀ e : GoError, lw.WatchFunc opts rt = (rt1, s, some e) →
      (wrapListWatchWithTransformer m lw (some t)).WatchFunc opts rt
        = (rt1, WatchInterface.nil, some e))
    ∧ (lw.WatchFunc opts rt = (rt1, s, none) →
      (wrapListWatchWithTransformer m lw (some t)).WatchFunc opts rt
        = ({ rt1 with
              chans := rt1.chans ++ [[]],
              procs := rt1.procs ++
                [{ wrapped := s, transformer := t, output := rt1.chans.length,
                   input := none, pc := Pc.start }] },
            WatchInterface.watcherWrapper s rt1.chans.length, none)) := by
  refine ⟨?_, ?_⟩
  · intro e h
    simp [wrapListWatchWithTransformer, h]
  · intro h
    simp [wrapListWatchWithTransformer, h, newWatcherWrapper]

theorem Stop_frame {W : Type} (s : WatchInterface W) (rt : Runtime W) :
    (s.Stop rt).chans = rt.chans ∧ (s.Stop rt).procs = rt.procs := by
  induction s with
  | nil => exact ⟨rfl, rfl⟩
  | source ident stop events closes => exact ⟨rfl, rfl⟩
  | watcherWrapper wrapped channel ih => exact ih

/-- C7: `Stop` on a `watcherWrapper` is one call of `Stop` on the wrapped
stream and nothing else: the state after it is the state after that one call;
no channel history changes (the output is neither written nor closed) and no
goroutine changes; `ResultChan` is the wrapper's `channel`, whatever the
state; and over a stream from outside the trace gains exactly one `Stop` entry
for that stream. -/
theorem C7_stop_delegates_once {W : Type} (wrapped : WatchInterface W) (channel : Nat)
    (rt : Runtime W) :
    (WatchInterface.watcherWrapper wrapped channel).Stop rt = wrapped.Stop rt
    ∧ ((WatchInterface.watcherWrapper wrapped channel).Stop rt).chans = rt.chans
    ∧ ((WatchInterface.watcherWrapper wrapped channel).Stop rt).procs = rt.procs
    ∧ (WatchInterface.watcherWrapper wrapped channel).ResultChan = some (Chan.made channel)
    ∧ (∀ (ident : Nat) (stop : W → W) (events : List Event) (closes : Bool),
        (WatchInterface.watcherWrapper (.source ident stop events closes) channel).Stop rt
          = { rt with world := stop rt.world, trace := rt.trace ++ [Call.Stop ident] }) :=
  ⟨rfl, (Stop_frame wrapped rt).1, (Stop_frame wrapped rt).2, rfl, fun _ _ _ _ => rfl⟩

/-- C1: on the example list holding the items at 1 and 2, with the transformer
that returns new objects (at 3 and 4, counters doubled) and leaves its
arguments untouched, the wrapped `ListFunc` succeeds and the returned list
still holds the items at 1 and 2 with their old counters: the objects the
transformer returned are not in it. -/
theorem C1_list_drops_returned_objects :
    ((wrapListWatchWithTransformer exMeta (exSource (some 0) none exStream none)
        (some doubleCopy)).ListFunc () (Runtime.fresh exWorld)).2 = (some 0, none)
    ∧ exItems ((wrapListWatchWithTransformer exMeta (exSource (some 0) none exStream none)
        (some doubleCopy)).ListFunc () (Runtime.fresh exWorld)).1.world (some 0)
        = some [some 1, some 2]
    ∧ transformerReturns doubleCopy exWorld [some 1, some 2] = [some 3, some 4]
    ∧ ((wrapListWatchWithTransformer exMeta (exSource (some 0) none exStream none)
        (some doubleCopy)).ListFunc () (Runtime.fresh exWorld)).1.world
        = [.list "rv7" [some 1, some 2], .item 5, .item 7, .item 10, .item 14]
    ∧ ((wrapListWatchWithTransformer exMeta (exSource (some 0) none exStream none)
        (some doubleCopy)).ListFunc () (Runtime.fresh exWorld)).1.trace
        = [Call.IsListType (some 0), Call.ExtractList (some 0),
           Call.transformer (some 1) (some 3), Call.transformer (some 2) (some 4),
           Call.SetList (some 0) [some 1, some 2]] := by
  refine ⟨?_, ?_, ?_, ?_, ?_⟩ <;> decide

theorem C4_witness :
    (exSource (some 0) (some (.upstream 4 "timeout")) exStream none).ListFunc ()
        (Runtime.fresh exWorld)
      = (Runtime.fresh exWorld, some 0, some (.upstream 4 "timeout"))
    ∧ (wrapListWatchWithTransformer exMeta
          (exSource (some 0) (some (.upstream 4 "timeout")) exStream none)
          (some doubleInPlace)).ListFunc () (Runtime.fresh exWorld)
        = (Runtime.fresh exWorld, none, some (.upstream 4 "timeout")) :=
  ⟨rfl,
    (C4_list_error_propagated exMeta
      (exSource (some 0) (some (.upstream 4 "timeout")) exStream none) doubleInPlace ()
      (Runtime.fresh exWorld) (Runtime.fresh exWorld) (some 0) (.upstream 4 "timeout") rfl).1⟩

theorem C5_witness :
    exMeta.IsListType exWorld (some 1) = false
    ∧ (wrapListWatchWithTransformer exMeta (exSource (some 1) none exStream none)
          (some doubleInPlace)).ListFunc () (Runtime.fresh exWorld)
        = ({ Runtime.fresh exWorld with trace := [Call.IsListType (some 1)] }, none,
            some (GoError.errorf "inner List func did not return a list")) :=
  ⟨by decide,
    (C5_not_a_list_gives_shape_error exMeta (exSource (some 1) none exStream none) doubleInPlace
      () (Runtime.fresh exWorld) (Runtime.fresh exWorld) (some 1) rfl (by decide)).1⟩

theorem C6_witness :
    (wrapListWatchWithTransformer exMeta
        (exSource none none .nil (some (.upstream 5 "watch refused")))
        (some doubleInPlace)).WatchFunc () (Runtime.fresh exWorld)
      = (Runtime.fresh exWorld, WatchInterface.nil, some (.upstream 5 "watch refused"))
    ∧ ((wrapListWatchWithTransformer exMeta (exSource none none exStream none)
        (some doubleInPlace)).WatchFunc () (Runtime.fresh exWorld)).2
      = (WatchInterface.watcherWrapper exStream 0, none) :=
  ⟨(C6_watch_error_propagated_or_wrapped exMeta
      (exSource none none .nil (some (.upstream 5 "watch refused"))) doubleInPlace ()
      (Runtime.fresh exWorld) (Runtime.fresh exWorld) .nil).1 (.upstream 5 "watch refused") rfl,
    congrArg Prod.snd
      ((C6_watch_error_propagated_or_wrapped exMeta (exSource none none exStream none)
        doubleInPlace () (Runtime.fresh exWorld) (Runtime.fresh exWorld) exStream).2 rfl)⟩

/-- A wrapper around a wrapper forwards too: with the goroutines taking turns,
the outer output gets both events and the close, and each counter has been
doubled twice. -/
theorem nested_wrappers_forward :
    (Runtime.sched [0, 1, 0, 0, 1, 1, 1, 0, 0, 1, 1, 1, 0, 0, 1, 1] exNested.1).history 1
      = [.send { Typ := "ADDED", Object := some 1 },
         .send { Typ := "MODIFIED", Object := some 2 }, .close]
    ∧ (Runtime.sched [0, 1, 0, 0, 1, 1, 1, 0, 0, 1, 1, 1, 0, 0, 1, 1] exNested.1).world
      = [.list "rv7" [some 1, some 2], .item 20, .item 28]
    ∧ exNested.2.ResultChan = some (Chan.made 1) := by
  refine ⟨?_, ?_, ?_⟩ <;> decide

theorem C9_witness :
    ((wrapListWatchWithTransformer exMetaNoExtract (exSource (some 0) none exStream none)
        (some doubleInPlace)).ListFunc () (Runtime.fresh exWorld)).2
      = (none, some (GoError.errorf "failed to get Items of list to transform: no Items field"))
    ∧ ((wrapListWatchWithTransformer exMeta (exSource (some 0) none exStream none)
        (some doubleInPlace)).ListFunc () (Runtime.fresh exWorldNil)).2
      = (none, some (GoError.errorf "failed to transform list: nil item")) :=
  ⟨congrArg Prod.snd
      ((C9_extract_and_setlist_errors exMetaNoExtract (exSource (some 0) none exStream none)
        doubleInPlace () (Runtime.fresh exWorld) (Runtime.fresh exWorld) (some 0) rfl rfl).1
        exWorld [] (.upstream 1 "no Items field") rfl),
    (C9_extract_and_setlist_errors exMeta (exSource (some 0) none exStream none)
      doubleInPlace () (Runtime.fresh exWorldNil) (Runtime.fresh exWorldNil) (some 0) rfl rfl).2.1
      exWorldNil exWorldNil [none] (.upstream 3 "nil item") rfl rfl⟩

theorem doubleInPlace_returns_argument (w : ExWorld) (v : Object) :
    (doubleInPlace w v).2 = v := by
  unfold doubleInPlace
  cases v with
  | none => rfl
  | some r => simp only []; split <;> rfl

theorem doubleCopy_keeps_old_objects (w : ExWorld) (v : Object)
    (h : 3 ≤ w.length ∧ w.take 3 = exWorld) :
    3 ≤ (doubleCopy w v).1.length ∧ (doubleCopy w v).1.take 3 = exWorld := by
  unfold doubleCopy
  cases v with
  | none => exact h
  | some r =>
    simp only []
    split
    · refine ⟨?_, ?_⟩
      · simp only [List.length_append]
        omega
      · rw [List.take_append_of_le_length h.1]
        exact h.2
    · exact h

theorem C10_witness :
    ((wrapListWatchWithTransformer exMeta (exSource (some 0) none exStream none)
        (some doubleInPlace)).ListFunc () (Runtime.fresh exWorld)).1.trace
      = [Call.IsListType (some 0), Call.ExtractList (some 0),
         Call.transformer (some 1) (some 1), Call.transformer (some 2) (some 2),
         Call.SetList (some 0) [some 1, some 2]]
    ∧ ((wrapListWatchWithTransformer exMeta (exSource (some 0) none exStream none)
        (some doubleInPlace)).ListFunc () (Runtime.fresh exWorld)).2 = (some 0, none)
    ∧ transformerReturns doubleInPlace exWorld [some 1, some 2] = [some 1, some 2]
    ∧ (3 ≤ (worldAfter doubleCopy exWorld [some 1, some 2]).length
        ∧ (worldAfter doubleCopy exWorld [some 1, some 2]).take 3 = exWorld) :=
  ⟨(C10_list_keeps_extracted_references exMeta (exSource (some 0) none exStream none)
      doubleInPlace () (Runtime.fresh exWorld) (Runtime.fresh exWorld) (some 0) exWorld
      [some 1, some 2] rfl rfl rfl).1,
    (C10_list_keeps_extracted_references exMeta (exSource (some 0) none exStream none)
      doubleInPlace () (Runtime.fresh exWorld) (Runtime.fresh exWorld) (some 0) exWorld
      [some 1, some 2] rfl rfl rfl).2.2.2.1 rfl,
    (C10_list_keeps_extracted_references exMeta (exSource (some 0) none exStream none)
      doubleInPlace () (Runtime.fresh exWorld) (Runtime.fresh exWorld) (some 0) exWorld
      [some 1, some 2] rfl rfl rfl).2.2.2.2.1 doubleInPlace_returns_argument,
    (C10_list_keeps_extracted_references exMeta (exSource (some 0) none exStream none)
      doubleCopy () (Runtime.fresh exWorld) (Runtime.fresh exWorld) (some 0) exWorld
      [some 1, some 2] rfl rfl rfl).2.2.2.2.2
      (fun w => 3 ≤ w.length ∧ w.take 3 = exWorld) ⟨by decide, rfl⟩
      (fun w v h => doubleCopy_keeps_old_objects w v h)⟩

end ListWatcherTransform
